import Mathlib

/-!
Verification of the stage-orchestration engine of the poster-generator
pipeline (LangGraph multi-agent system).  The embedding below follows the
Python source files: `src/state.py`, `src/main.py`,
`src/agents/text_generation_agent.py`, `src/agents/editor_agent.py`,
`src/agents/text_validation_agent.py`, `src/agents/planning_agent.py`.
Collaborator calls (OpenAI chat completions, diffusers pipeline) are
treated as oracle inputs: each stage function takes the collaborator
response as an explicit argument (`Except CollabError String` where the
source lets an exception propagate or catches it).
-/

/-- Python substring containment: the expression s2 in s1 on strings.
Used by the source as a parser primitive, for example
the expression VALIDATION PASS in validation_result.upper(). -/
def strContains (hay needle : String) : Bool :=
  decide (List.IsInfix needle.toList hay.toList)

/-- Python str.upper(), character by character (the responses and labels
the source compares are ASCII). -/
def pyUpper (s : String) : String := ⟨s.data.map Char.toUpper⟩

/-- Python str.strip(): drop surrounding whitespace. -/
def pyStrip (s : String) : String :=
  ⟨((s.data.dropWhile Char.isWhitespace).reverse.dropWhile Char.isWhitespace).reverse⟩

/-- Worker for pySplitOn: scan left to right, starting a new chunk at each
non-overlapping occurrence of the separator.  The fuel argument (the
length of the scanned list) keeps the recursion structural. -/
def pySplitGo : Nat → List Char → List Char → List Char → List (List Char)
  | 0, _, acc, _ => [acc.reverse]
  | _ + 1, [], acc, _ => [acc.reverse]
  | f + 1, c :: rest, acc, sep =>
    if sep.isPrefixOf (c :: rest) then
      acc.reverse :: pySplitGo f (List.drop sep.length (c :: rest)) [] sep
    else pySplitGo f rest (c :: acc) sep

/-- Python str.split(sep) for a non-empty separator: the list of chunks
between consecutive occurrences of sep. -/
def pySplitOn (s sep : String) : List String :=
  (pySplitGo s.data.length s.data [] sep.data).map (fun l => ⟨l⟩)

/-- Python truthiness of an optional string: None and the empty string are
falsy, every other string is truthy. -/
def pyTruthy : Option String → Bool
  | none => false
  | some s => !(s = "")

/-- Python short-circuit `a or b` on optional strings, as used in
`state.get("best_text") or state.get("generated_text")` in the source. -/
def pyOr (a b : Option String) : Option String :=
  if pyTruthy a then a else b

/-- Error raised by an external collaborator call (transport or model
failure); the source sees a Python exception with a message. -/
inductive CollabError where
  | mk (msg : String)
  deriving Repr, DecidableEq

/-- Message of a collaborator error, as produced by str(e) in the source. -/
def CollabError.msg : CollabError → String
  | CollabError.mk m => m

/-- The shared pipeline state, mirroring the AgentState TypedDict of
src/state.py.  The overlay-loop fields (text_adding_attempt_count,
text_validation_result, text_validation_feedback, text_is_correct,
text_is_clear, found_text, specific_fix) are not declared in state.py but
are read and written through state.get / state[...] by
src/agents/text_validation_agent.py, so they appear here as optional
fields (absent = none).  The image_pipeline field of the source holds an
opaque diffusers object; it is modelled as Option Unit. -/
structure AgentState where
  input_text : String
  input_image_path : String
  image_pipeline : Option Unit
  planning_output : Option String
  generated_text : Option String
  text_attempt_count : Nat
  best_text : Option String
  current_image : Option String
  image_attempt_count : Nat
  best_image : Option String
  validation_feedback : Option String
  validation_passed : Bool
  poster_with_text : Option String
  final_poster_path : Option String
  final_text_path : Option String
  text_adding_attempt_count : Option Nat
  text_validation_result : Option String
  text_validation_feedback : Option String
  text_is_correct : Bool
  text_is_clear : Bool
  found_text : Option String
  specific_fix : Option String
  deriving Repr, DecidableEq

/-- The initial state built in main() of src/main.py (lines 235-251);
keys not in that dict are absent (none / false). -/
def initialState : AgentState :=
  { input_text := ""
    input_image_path := ""
    image_pipeline := none
    planning_output := none
    generated_text := none
    text_attempt_count := 0
    best_text := none
    current_image := none
    image_attempt_count := 0
    best_image := none
    validation_feedback := none
    validation_passed := false
    poster_with_text := none
    final_poster_path := none
    final_text_path := none
    text_adding_attempt_count := none
    text_validation_result := none
    text_validation_feedback := none
    text_is_correct := false
    text_is_clear := false
    found_text := none
    specific_fix := none }

/-- Marker checked by the text and image validators:
the expression VALIDATION PASS (with a colon) inside the uppercased response. -/
def passMarker : String := "VALIDATION: PASS"

/-- Marker checked by the overlay validator. -/
def approvedMarker : String := "VALIDATION: APPROVED"

/-- Marker for the logo-integration sub-field of the image validator. -/
def logoMarker : String := "LOGO_INTEGRATED: YES"

/-- Remediation note appended by editor_agent when the logo is not
integrated (src/agents/editor_agent.py line 117). -/
def logoNote : String :=
  "\n\nIMPORTANT: Logo not properly integrated. Must revert to input.png as base."

/-- Retry router of the text-generation loop
(should_retry_text, src/agents/text_generation_agent.py lines 158-172).
The source reads the bound from config.MAX_TEXT_ATTEMPTS; here the bound
is an explicit argument.  The router only reads the state and prints;
it is embedded as a pure function returning the edge label. -/
def should_retry_text (maxT : Nat) (s : AgentState) : String :=
  if s.validation_passed then "continue"
  else if s.text_attempt_count ≥ maxT then "continue"
  else "retry"

/-- Retry router of the image-generation loop
(should_retry_image, src/agents/editor_agent.py lines 122-136). -/
def should_retry_image (maxI : Nat) (s : AgentState) : String :=
  if s.validation_passed then "continue"
  else if s.image_attempt_count ≥ maxI then "continue"
  else "retry"

/-- Retry router of the overlay (text-adding) loop
(should_retry_text_adding, src/agents/text_validation_agent.py lines
172-193).  The source reads the two state keys through state.get with
defaults 0 and the string rejected. -/
def should_retry_text_adding (maxA : Nat) (s : AgentState) : String :=
  let attempt_count := s.text_adding_attempt_count.getD 0
  let validation_result := s.text_validation_result.getD "rejected"
  if validation_result = "approved" then "continue"
  else if attempt_count < maxA then "retry"
  else "continue"

/-- Text-generation stage
(text_generation_agent, src/agents/text_generation_agent.py lines 11-89),
with the collaborator-produced text passed as argument t.  It increments
the attempt counter, stores the generated text, and sets best_text as an
unconditional first-attempt fallback when no best exists yet. -/
def text_generation_agent (t : String) (s : AgentState) : AgentState :=
  { s with
    text_attempt_count := s.text_attempt_count + 1
    generated_text := some t
    best_text := if s.best_text = none then some t else s.best_text }

/-- Text-validation stage
(validate_text, src/agents/text_generation_agent.py lines 92-155), with
the validator response passed as argument r.  It stores the raw response
in validation_feedback, computes the pass flag by substring containment,
and overwrites best_text with the current generated text on pass. -/
def validate_text (r : String) (s : AgentState) : AgentState :=
  let validation_passed := strContains (pyUpper r) passMarker
  let s1 := { s with
              validation_feedback := some r
              validation_passed := validation_passed }
  if validation_passed then { s1 with best_text := s1.generated_text }
  else s1

/-- Text-validation stage with a fallible collaborator: the source has no
try/except around the chat-completions call, so a collaborator error
propagates out of the stage. -/
def validate_text_run (resp : Except CollabError String) (s : AgentState) :
    Except CollabError AgentState :=
  match resp with
  | Except.error e => Except.error e
  | Except.ok r => Except.ok (validate_text r s)

/-- Text-generation stage with a fallible collaborator: the source has no
try/except around the chat-completions call, so a collaborator error
propagates out of the stage. -/
def text_generation_agent_run (resp : Except CollabError String)
    (s : AgentState) : Except CollabError AgentState :=
  match resp with
  | Except.error e => Except.error e
  | Except.ok t => Except.ok (text_generation_agent t s)

/-- Image-validation stage
(editor_agent, src/agents/editor_agent.py lines 17-119), with the
validator response passed as argument r.  It stores the raw response in
validation_feedback, computes the pass flag and the logo-integration
sub-field by substring containment, updates best_image when the attempt
passed or no best exists, and appends the fixed remediation note to the
feedback when the logo is not integrated. -/
def editor_agent (r : String) (s : AgentState) : AgentState :=
  let validation_passed := strContains (pyUpper r) passMarker
  let logo_integrated := strContains (pyUpper r) logoMarker
  let best_image :=
    if validation_passed || s.best_image = none then s.current_image
    else s.best_image
  let feedback := if logo_integrated then r else r ++ logoNote
  { s with
    validation_feedback := some feedback
    validation_passed := validation_passed
    best_image := best_image }

/-- Image-validation stage with a fallible collaborator: the source has no
try/except, so a collaborator error propagates out of the stage. -/
def editor_agent_run (resp : Except CollabError String) (s : AgentState) :
    Except CollabError AgentState :=
  match resp with
  | Except.error e => Except.error e
  | Except.ok r => Except.ok (editor_agent r s)

/-- Cut of the FOUND_TEXT section at the next known label, mirroring the
for-loop with break of src/agents/text_validation_agent.py lines 124-127:
SPECIFIC_FIX is tried first, then VALIDATION, stopping at the first label
present. -/
def cutFoundTextSection (sec : String) : String :=
  if strContains sec "SPECIFIC_FIX:" then (pySplitOn sec "SPECIFIC_FIX:").getD 0 ""
  else if strContains sec "VALIDATION:" then (pySplitOn sec "VALIDATION:").getD 0 ""
  else sec

/-- Cut of the SPECIFIC_FIX section at the VALIDATION label
(src/agents/text_validation_agent.py lines 134-136). -/
def cutSpecificFixSection (sec : String) : String :=
  if strContains sec "VALIDATION:" then (pySplitOn sec "VALIDATION:").getD 0 ""
  else sec

/-- Overlay (text-adding) validation stage
(text_validation_agent, src/agents/text_validation_agent.py lines 18-169),
with the fallible collaborator response passed as argument.  On success it
parses the structured response by substring containment and split; on a
collaborator error the except-branch (lines 155-167) records the attempt
as rejected with conservative defaults, and the stage never fails. -/
def text_validation_agent (resp : Except CollabError String)
    (s : AgentState) : AgentState :=
  match resp with
  | Except.error e =>
    { s with
      text_validation_result := some "rejected"
      text_validation_feedback :=
        some ("Validation failed due to error: " ++ e.msg)
      text_is_correct := false
      text_is_clear := false
      found_text := none
      specific_fix := none }
  | Except.ok r =>
    let validation_approved := strContains (pyUpper r) approvedMarker
    let text_is_correct := strContains (pyUpper r) "TEXT_CORRECT: YES"
    let text_is_clear := strContains (pyUpper r) "TEXT_CLEAR: YES"
    let found_text :=
      if strContains r "FOUND_TEXT:" then
        some (pyStrip (cutFoundTextSection ((pySplitOn r "FOUND_TEXT:").getD 1 "")))
      else none
    let specific_fix :=
      if strContains r "SPECIFIC_FIX:" then
        some (pyStrip (cutSpecificFixSection ((pySplitOn r "SPECIFIC_FIX:").getD 1 "")))
      else none
    { s with
      text_validation_result :=
        some (if validation_approved then "approved" else "rejected")
      text_validation_feedback := some r
      text_is_correct := text_is_correct
      text_is_clear := text_is_clear
      found_text := found_text
      specific_fix := specific_fix }

/-- Errors that propagate to the top level of the pipeline: the
FileNotFoundError raised by load_input, and the TypeError raised when
shutil.copy or f.write in save_output receives None. -/
inductive PipelineError where
  | fileNotFound (path : String)
  | copyFromNone
  | writeNone
  deriving Repr, DecidableEq

/-- Input-loading stage (load_input, src/main.py lines 69-102).  The file
system is abstracted as an existence predicate and the content of the text
file as an argument; the source raises FileNotFoundError when either the
input text file or the input image is missing, checking the text file
first.  On success it stores the stripped text, the image path, and the
initial counters and pass flag. -/
def load_input (fsExists : String → Bool) (inputTextPath inputImagePath : String)
    (fileContent : String) (s : AgentState) : Except PipelineError AgentState :=
  if fsExists inputTextPath = false then
    Except.error (PipelineError.fileNotFound inputTextPath)
  else if fsExists inputImagePath = false then
    Except.error (PipelineError.fileNotFound inputImagePath)
  else
    Except.ok { s with
                input_text := pyStrip fileContent
                input_image_path := inputImagePath
                text_attempt_count := 0
                image_attempt_count := 0
                validation_passed := false }

/-- Pipeline-loading stage (load_pipeline, src/main.py lines 26-66).  The
whole body is wrapped in try/except: on failure the stage stores None and
continues, so the stage itself never raises.  The argument says whether
the diffusers pipeline load succeeded. -/
def load_pipeline (loadOk : Bool) (s : AgentState) : AgentState :=
  if loadOk then { s with image_pipeline := some () }
  else { s with image_pipeline := none }

/-- Sequential execution of a list of named stages, as the LangGraph
orchestrator built in build_graph (src/main.py lines 161-219) does along
its unconditional edges: each stage runs against the current state; an
exception aborts the run immediately, so no later stage executes.  The
result pairs the names of the stages that were entered, in order, with
the final outcome. -/
def runStages (stages : List (String × (AgentState → Except PipelineError AgentState)))
    (s : AgentState) : List String × Except PipelineError AgentState :=
  match stages with
  | [] => ([], Except.ok s)
  | (n, f) :: rest =>
    match f s with
    | Except.error e => ([n], Except.error e)
    | Except.ok s1 =>
      let p := runStages rest s1
      (n :: p.1, p.2)

/-- The first two nodes of the compiled graph, in the order fixed by
build_graph (src/main.py lines 184-188): the entry point is load_pipeline
and its unconditional edge leads to load_input, where the missing-input
check lives. -/
def graphEntryStages (loadOk : Bool) (fsExists : String → Bool)
    (inputTextPath inputImagePath fileContent : String) :
    List (String × (AgentState → Except PipelineError AgentState)) :=
  [("load_pipeline", fun s => Except.ok (load_pipeline loadOk s)),
   ("load_input", load_input fsExists inputTextPath inputImagePath fileContent)]

/-- Output-saving stage (save_output, src/main.py lines 120-158).  The
poster source is poster_with_text unless that is falsy or its path does
not exist, in which case it falls back to best_image or current_image;
the final text is best_text or generated_text.  Passing None to
shutil.copy or f.write raises, which the embedding surfaces as an error.
On success the result also reports the poster source that was copied and
the text that was written. -/
def save_output (fsExists : String → Bool) (outputDir : String) (s : AgentState) :
    Except PipelineError (AgentState × String × String) :=
  let ps0 := s.poster_with_text
  let poster_source :=
    if !(pyTruthy ps0) || !(fsExists (ps0.getD "")) then
      pyOr s.best_image s.current_image
    else ps0
  match poster_source with
  | none => Except.error PipelineError.copyFromNone
  | some p =>
    match pyOr s.best_text s.generated_text with
    | none => Except.error PipelineError.writeNone
    | some t =>
      Except.ok
        ({ s with
           final_poster_path := some (outputDir ++ "/poster.png")
           final_text_path := some (outputDir ++ "/text.txt") }, p, t)

/-- One iteration of the text-generation retry loop: the generation stage
followed by the validation stage, as wired by the edge from
text_generation to text_validation in build_graph (src/main.py line 192).
The collaborator outputs are oracles indexed by attempt number. -/
def textLoopIter (gen resp : Nat → String) (s : AgentState) : AgentState :=
  let s1 := text_generation_agent (gen (s.text_attempt_count + 1)) s
  validate_text (resp s1.text_attempt_count) s1

/-- Execution of the text retry loop under the conditional edge of
build_graph (src/main.py lines 193-200): iterate generation plus
validation, exiting when should_retry_text answers continue.  The first
argument of the result counts the loop iterations that were executed.
The extra fuel argument bounds the recursion; none means the fuel was
exhausted before the router released the loop. -/
def textLoopRun (maxT : Nat) (gen resp : Nat → String) :
    Nat → AgentState → Option (Nat × AgentState)
  | 0, _ => none
  | f + 1, s =>
    let s1 := textLoopIter gen resp s
    if should_retry_text maxT s1 = "continue" then some (1, s1)
    else
      match textLoopRun maxT gen resp f s1 with
      | none => none
      | some (n, s2) => some (n + 1, s2)

/-- One attempt of the text loop with explicit candidate text t and
validator response r. -/
def textAttempt (t r : String) (s : AgentState) : AgentState :=
  validate_text r (text_generation_agent t s)

/-- Folding a sequence of text-loop attempts over the state. -/
def runTextAttempts (s : AgentState) : List (String × String) → AgentState
  | [] => s
  | (t, r) :: rest => runTextAttempts (textAttempt t r s) rest

/-- Modelled from the spec: the image-generation stage
(src/agents/image_generation_agent.py is referenced by src/main.py but the
file is not under src/).  Per the specification it produces one image per
loop iteration, storing its reference as the current image, and
increments the image attempt counter exactly once per iteration. -/
def image_generation_agent (img : String) (s : AgentState) : AgentState :=
  { s with
    current_image := some img
    image_attempt_count := s.image_attempt_count + 1 }

/-- One attempt of the image loop with explicit candidate image img and
validator response r, as wired by the edge from image_generation to
image_validation in build_graph (src/main.py line 203). -/
def imageAttempt (img r : String) (s : AgentState) : AgentState :=
  editor_agent r (image_generation_agent img s)

/-- Folding a sequence of image-loop attempts over the state. -/
def runImageAttempts (s : AgentState) : List (String × String) → AgentState
  | [] => s
  | (img, r) :: rest => runImageAttempts (imageAttempt img r s) rest

/-- One iteration of the image-generation retry loop: the generation stage
followed by the validation stage, as wired by the edge from
image_generation to image_validation in build_graph (src/main.py line
203).  The collaborator outputs are oracles indexed by attempt number. -/
def imageLoopIter (gen resp : Nat → String) (s : AgentState) : AgentState :=
  let s1 := image_generation_agent (gen (s.image_attempt_count + 1)) s
  editor_agent (resp s1.image_attempt_count) s1

/-- Execution of the image retry loop under the conditional edge of
build_graph (src/main.py lines 204-211): iterate generation plus
validation, exiting when should_retry_image answers continue; the fuel
argument bounds the recursion as for the text loop. -/
def imageLoopRun (maxI : Nat) (gen resp : Nat → String) :
    Nat → AgentState → Option (Nat × AgentState)
  | 0, _ => none
  | f + 1, s =>
    let s1 := imageLoopIter gen resp s
    if should_retry_image maxI s1 = "continue" then some (1, s1)
    else
      match imageLoopRun maxI gen resp f s1 with
      | none => none
      | some (n, s2) => some (n + 1, s2)

/-!
Theorems settling the claims.
-/

/-- C1: every retry router is a total, side-effect-free function of the
attempt count, the bound, and the pass flag (they are embedded as pure
functions of the state returning only an edge label): for every bound
of at least 1, each router answers continue exactly when its validation
passed or its attempt count has reached the bound, and answers retry
otherwise.  For the overlay router the pass flag is the stored
text_validation_result being the string approved (default rejected) and
the count defaults to 0, as in the source. -/
theorem retry_router_characterization (mt mi ma : Nat) (s : AgentState)
    (hmt : 1 ≤ mt) (hmi : 1 ≤ mi) (hma : 1 ≤ ma) :
    (should_retry_text mt s = "continue" ↔
      (s.validation_passed = true ∨ s.text_attempt_count ≥ mt)) ∧
    (should_retry_text mt s = "retry" ↔
      ¬(s.validation_passed = true ∨ s.text_attempt_count ≥ mt)) ∧
    (should_retry_image mi s = "continue" ↔
      (s.validation_passed = true ∨ s.image_attempt_count ≥ mi)) ∧
    (should_retry_image mi s = "retry" ↔
      ¬(s.validation_passed = true ∨ s.image_attempt_count ≥ mi)) ∧
    (should_retry_text_adding ma s = "continue" ↔
      (s.text_validation_result.getD "rejected" = "approved" ∨
        s.text_adding_attempt_count.getD 0 ≥ ma)) ∧
    (should_retry_text_adding ma s = "retry" ↔
      ¬(s.text_validation_result.getD "rejected" = "approved" ∨
        s.text_adding_attempt_count.getD 0 ≥ ma)) := by
  have hrc : ("retry" : String) ≠ "continue" := by decide
  have hcr : ("continue" : String) ≠ "retry" := by decide
  unfold should_retry_text should_retry_image should_retry_text_adding
  refine ⟨?_, ?_, ?_, ?_, ?_, ?_⟩ <;> dsimp only <;> split_ifs with h1 h2 <;>
    simp_all

/-- Witness for C1 at concrete inputs: fresh state, bounds 3. -/
theorem retry_router_characterization_witness :
    should_retry_text 3 initialState = "retry" :=
  ((retry_router_characterization 3 3 3 initialState (by decide) (by decide)
    (by decide)).2.1).mpr (by decide)

/-- C2: candidate-tracker non-downgrade with latest-pass-wins, for both
retried loops that track a best candidate.  On an attempt where no best
exists yet (the first attempt) the best pointer is set to that attempt
unconditionally; on an attempt where a best already exists it is
overwritten exactly when the validation passed; a failing attempt never
changes an existing best; and therefore any sequence of failing attempts
after a best has been recorded leaves the best unchanged. -/
theorem candidate_tracker_non_downgrade :
    (∀ t r s, s.best_text = none → (textAttempt t r s).best_text = some t) ∧
    (∀ t r s b, s.best_text = some b →
      strContains (pyUpper r) passMarker = true →
      (textAttempt t r s).best_text = some t) ∧
    (∀ t r s b, s.best_text = some b →
      strContains (pyUpper r) passMarker = false →
      (textAttempt t r s).best_text = some b) ∧
    (∀ img r s, s.best_image = none →
      (imageAttempt img r s).best_image = some img) ∧
    (∀ img r s b, s.best_image = some b →
      strContains (pyUpper r) passMarker = true →
      (imageAttempt img r s).best_image = some img) ∧
    (∀ img r s b, s.best_image = some b →
      strContains (pyUpper r) passMarker = false →
      (imageAttempt img r s).best_image = some b) ∧
    (∀ s b fails, s.best_text = some b →
      (∀ p ∈ fails, strContains (pyUpper (Prod.snd p)) passMarker = false) →
      (runTextAttempts s fails).best_text = some b) ∧
    (∀ s b fails, s.best_image = some b →
      (∀ p ∈ fails, strContains (pyUpper (Prod.snd p)) passMarker = false) →
      (runImageAttempts s fails).best_image = some b) := by
  have htext : ∀ t r s b, s.best_text = some b →
      strContains (pyUpper r) passMarker = false →
      (textAttempt t r s).best_text = some b := by
    intro t r s b hb hp
    simp [textAttempt, validate_text, text_generation_agent, hb, hp]
  have himg : ∀ img r s b, s.best_image = some b →
      strContains (pyUpper r) passMarker = false →
      (imageAttempt img r s).best_image = some b := by
    intro img r s b hb hp
    simp [imageAttempt, editor_agent, image_generation_agent, hb, hp]
  refine ⟨?_, ?_, htext, ?_, ?_, himg, ?_, ?_⟩
  · intro t r s hb
    cases hp : strContains (pyUpper r) passMarker <;>
      simp [textAttempt, validate_text, text_generation_agent, hb, hp]
  · intro t r s b hb hp
    simp [textAttempt, validate_text, text_generation_agent, hb, hp]
  · intro img r s hb
    cases hp : strContains (pyUpper r) passMarker <;>
      simp [imageAttempt, editor_agent, image_generation_agent, hb, hp]
  · intro img r s b hb hp
    simp [imageAttempt, editor_agent, image_generation_agent, hb, hp]
  · intro s b fails
    induction fails generalizing s with
    | nil => intro hb _; simpa [runTextAttempts] using hb
    | cons p rest ih =>
      intro hb hall
      have hstep := htext p.1 p.2 s b hb (hall p (by simp))
      have : runTextAttempts s (p :: rest) =
          runTextAttempts (textAttempt p.1 p.2 s) rest := by
        cases p; rfl
      rw [this]
      exact ih _ hstep (fun q hq => hall q (by simp [hq]))
  · intro s b fails
    induction fails generalizing s with
    | nil => intro hb _; simpa [runImageAttempts] using hb
    | cons p rest ih =>
      intro hb hall
      have hstep := himg p.1 p.2 s b hb (hall p (by simp))
      have : runImageAttempts s (p :: rest) =
          runImageAttempts (imageAttempt p.1 p.2 s) rest := by
        cases p; rfl
      rw [this]
      exact ih _ hstep (fun q hq => hall q (by simp [hq]))

/-- Witness for C2 at concrete inputs: a best recorded from a passing
attempt survives two subsequent failing attempts. -/
theorem candidate_tracker_non_downgrade_witness :
    (runTextAttempts { initialState with best_text := some "good" }
      [("x", "VALIDATION: FAIL"), ("y", "NO MARKER")]).best_text =
      some "good" :=
  candidate_tracker_non_downgrade.2.2.2.2.2.2.1
    { initialState with best_text := some "good" } "good"
    [("x", "VALIDATION: FAIL"), ("y", "NO MARKER")] (by decide) (by decide)

/-- Counterexample for C3 at a concrete input: after the text-validation
stage stores its result, running the image-validation stage (editor_agent)
changes both stored components — validation_feedback and
validation_passed are one shared record (src/state.py lines 33-35), not a
record per loop, so the image loop overwrites the text loop's stored
validation result. -/
theorem validation_state_shared_counterexample :
    ((editor_agent "VALIDATION: PASS LOGO_INTEGRATED: YES"
        (validate_text "VALIDATION: FAIL" initialState)).validation_feedback ≠
      (validate_text "VALIDATION: FAIL" initialState).validation_feedback) ∧
    ((editor_agent "VALIDATION: PASS LOGO_INTEGRATED: YES"
        (validate_text "VALIDATION: FAIL" initialState)).validation_passed ≠
      (validate_text "VALIDATION: FAIL" initialState).validation_passed) := by
  decide

/-- C3 amended: the text-validation and image-validation loops share one
validation record — both stages write the same validation_feedback and
validation_passed fields, so the image loop overwrites the text loop's
stored result; only the overlay loop's validation state
(text_validation_result and text_validation_feedback) is a distinct
record: the overlay stage never changes the shared pair, and the text-
and image-validation stages never change the overlay fields. -/
theorem validation_state_scoping_amended :
    (∀ r s, (validate_text r s).validation_feedback = some r ∧
      (validate_text r s).validation_passed = strContains (pyUpper r) passMarker) ∧
    (∀ r s, (editor_agent r s).validation_feedback =
        some (if strContains (pyUpper r) logoMarker then r else r ++ logoNote) ∧
      (editor_agent r s).validation_passed = strContains (pyUpper r) passMarker) ∧
    (∀ resp s, (text_validation_agent resp s).validation_feedback =
        s.validation_feedback ∧
      (text_validation_agent resp s).validation_passed = s.validation_passed) ∧
    (∀ r s, (validate_text r s).text_validation_result =
        s.text_validation_result ∧
      (validate_text r s).text_validation_feedback =
        s.text_validation_feedback) ∧
    (∀ r s, (editor_agent r s).text_validation_result =
        s.text_validation_result ∧
      (editor_agent r s).text_validation_feedback =
        s.text_validation_feedback) := by
  refine ⟨?_, ?_, ?_, ?_, ?_⟩
  · intro r s
    cases hp : strContains (pyUpper r) passMarker <;> simp [validate_text, hp]
  · intro r s
    cases hl : strContains (pyUpper r) logoMarker <;> simp [editor_agent, hl]
  · intro resp s
    cases resp <;> simp [text_validation_agent]
  · intro r s
    cases hp : strContains (pyUpper r) passMarker <;> simp [validate_text, hp]
  · intro r s
    simp [editor_agent]

/-- The validation stage never changes the attempt counter. -/
theorem validate_text_count (r : String) (s : AgentState) :
    (validate_text r s).text_attempt_count = s.text_attempt_count := by
  unfold validate_text
  dsimp only
  split <;> rfl

/-- One loop iteration increments the attempt counter by exactly one. -/
theorem textLoopIter_count (gen resp : Nat → String) (s : AgentState) :
    (textLoopIter gen resp s).text_attempt_count = s.text_attempt_count + 1 := by
  unfold textLoopIter
  rw [validate_text_count]
  rfl

/-- Helper for the loop-counter bound: starting below the bound, whenever
the fueled loop run exits (which it does exactly when the router answers
continue), the final counter is between 1 and the bound and the router
answers continue there. -/
theorem textLoopRun_invariant (maxT : Nat) (gen resp : Nat → String) :
    ∀ fuel s n s1, s.text_attempt_count < maxT →
      textLoopRun maxT gen resp fuel s = some (n, s1) →
      should_retry_text maxT s1 = "continue" ∧
      1 ≤ s1.text_attempt_count ∧ s1.text_attempt_count ≤ maxT := by
  intro fuel
  induction fuel with
  | zero => intro s n s1 _ h; simp [textLoopRun] at h
  | succ f ih =>
    intro s n s1 hlt h
    have hcount := textLoopIter_count gen resp s
    rw [textLoopRun] at h
    by_cases hc : should_retry_text maxT (textLoopIter gen resp s) = "continue"
    · rw [if_pos hc] at h
      simp only [Option.some.injEq, Prod.mk.injEq] at h
      obtain ⟨hn, hs⟩ := h
      subst hs
      exact ⟨hc, by omega, by omega⟩
    · rw [if_neg hc] at h
      have hlt1 : (textLoopIter gen resp s).text_attempt_count < maxT := by
        by_contra hge
        apply hc
        unfold should_retry_text
        split
        · rfl
        · rw [if_pos (by omega)]
      cases hrec : textLoopRun maxT gen resp f (textLoopIter gen resp s) with
      | none => rw [hrec] at h; simp at h
      | some p =>
        obtain ⟨m, s2⟩ := p
        rw [hrec] at h
        simp only [Option.some.injEq, Prod.mk.injEq] at h
        obtain ⟨hn, hs⟩ := h
        subst hs
        exact ih _ m s2 hlt1 hrec

/-- Helper, mirroring textLoopRun_invariant for the image loop. -/
theorem imageLoopRun_invariant (maxI : Nat) (gen resp : Nat → String) :
    ∀ fuel s n s1, s.image_attempt_count < maxI →
      imageLoopRun maxI gen resp fuel s = some (n, s1) →
      should_retry_image maxI s1 = "continue" ∧
      1 ≤ s1.image_attempt_count ∧ s1.image_attempt_count ≤ maxI := by
  intro fuel
  induction fuel with
  | zero => intro s n s1 _ h; simp [imageLoopRun] at h
  | succ f ih =>
    intro s n s1 hlt h
    have hcount : (imageLoopIter gen resp s).image_attempt_count =
        s.image_attempt_count + 1 := rfl
    rw [imageLoopRun] at h
    by_cases hc : should_retry_image maxI (imageLoopIter gen resp s) = "continue"
    · rw [if_pos hc] at h
      simp only [Option.some.injEq, Prod.mk.injEq] at h
      obtain ⟨hn, hs⟩ := h
      subst hs
      exact ⟨hc, by omega, by omega⟩
    · rw [if_neg hc] at h
      have hlt1 : (imageLoopIter gen resp s).image_attempt_count < maxI := by
        by_contra hge
        apply hc
        unfold should_retry_image
        split
        · rfl
        · rw [if_pos (by omega)]
      cases hrec : imageLoopRun maxI gen resp f (imageLoopIter gen resp s) with
      | none => rw [hrec] at h; simp at h
      | some p =>
        obtain ⟨m, s2⟩ := p
        rw [hrec] at h
        simp only [Option.some.injEq, Prod.mk.injEq] at h
        obtain ⟨hn, hs⟩ := h
        subst hs
        exact ih _ m s2 hlt1 hrec

/-- C4: in each retried loop of the graph (text and image), the
generation stage increments that loop's attempt counter by exactly one
per iteration, the validation stage never changes it (no stage decrements
it), and on any run of the loop from the initial state with bound at
least 1, at the point the router returns continue the counter satisfies
1 ≤ count ≤ maxAttempts of the loop. -/
theorem attempt_counter_bound :
    (∀ t s,
      (text_generation_agent t s).text_attempt_count =
        s.text_attempt_count + 1) ∧
    (∀ r s,
      (validate_text r s).text_attempt_count = s.text_attempt_count) ∧
    (∀ maxT gen resp fuel n s1, 1 ≤ maxT →
      textLoopRun maxT gen resp fuel initialState = some (n, s1) →
      should_retry_text maxT s1 = "continue" ∧
      1 ≤ s1.text_attempt_count ∧ s1.text_attempt_count ≤ maxT) ∧
    (∀ img s,
      (image_generation_agent img s).image_attempt_count =
        s.image_attempt_count + 1) ∧
    (∀ r s,
      (editor_agent r s).image_attempt_count = s.image_attempt_count) ∧
    (∀ maxI gen resp fuel n s1, 1 ≤ maxI →
      imageLoopRun maxI gen resp fuel initialState = some (n, s1) →
      should_retry_image maxI s1 = "continue" ∧
      1 ≤ s1.image_attempt_count ∧ s1.image_attempt_count ≤ maxI) := by
  refine ⟨?_, ?_, ?_, ?_, ?_, ?_⟩
  · intro t s; simp [text_generation_agent]
  · intro r s
    cases hp : strContains (pyUpper r) passMarker <;> simp [validate_text, hp]
  · intro maxT gen resp fuel n s1 hmax h
    exact textLoopRun_invariant maxT gen resp fuel initialState n s1
      (by simp [initialState]; omega) h
  · intro img s; simp [image_generation_agent]
  · intro r s; rfl
  · intro maxI gen resp fuel n s1 hmax h
    exact imageLoopRun_invariant maxI gen resp fuel initialState n s1
      (by simp [initialState]; omega) h

/-- Witness for C4 at concrete inputs: bound 1, one iteration. -/
theorem attempt_counter_bound_witness :
    1 ≤ (textLoopIter (fun _ => "T") (fun _ => "RESP")
          initialState).text_attempt_count ∧
    (textLoopIter (fun _ => "T") (fun _ => "RESP")
      initialState).text_attempt_count ≤ 1 :=
  (attempt_counter_bound.2.2.1 1 (fun _ => "T") (fun _ => "RESP") 1 1
    (textLoopIter (fun _ => "T") (fun _ => "RESP") initialState)
    (by decide) (by decide)).2

/-- Counterexample for C5 at a concrete input: a transport error raised
by the text-validation collaborator propagates out of the validate_text
stage (there is no try/except in src/agents/text_generation_agent.py
lines 92-155) and aborts the run; the same holds for the image-validation
stage (editor_agent).  The claim that every validation collaborator error
is mapped to a failed ValidationResult and never aborts the run is
therefore false. -/
theorem validation_error_propagation_counterexample :
    validate_text_run (Except.error (CollabError.mk "connection reset"))
        initialState =
      Except.error (CollabError.mk "connection reset") ∧
    editor_agent_run (Except.error (CollabError.mk "connection reset"))
        initialState =
      Except.error (CollabError.mk "connection reset") :=
  ⟨rfl, rfl⟩

/-- C5 amended: the failure asymmetry exists only at the overlay loop.
A collaborator error in the overlay-validation stage is caught and
recorded as a rejected attempt with conservative defaults (and the stage,
being a total function into states, never aborts), after which the
overlay retry loop proceeds normally — on attempt 2 of 3 the router
answers retry.  A collaborator error in the text-validation stage, the
image-validation stage, or the text-generation stage propagates and
aborts the run. -/
theorem collaborator_failure_asymmetry_amended :
    (∀ e s, (text_validation_agent (Except.error e) s).text_validation_result =
        some "rejected" ∧
      (text_validation_agent (Except.error e) s).text_validation_feedback =
        some ("Validation failed due to error: " ++ e.msg) ∧
      (text_validation_agent (Except.error e) s).text_is_correct = false ∧
      (text_validation_agent (Except.error e) s).text_is_clear = false) ∧
    (∀ (e : CollabError) (s : AgentState), should_retry_text_adding 3
        (text_validation_agent (Except.error e)
          { s with text_adding_attempt_count := some 2 }) = "retry") ∧
    (∀ e s, validate_text_run (Except.error e) s = Except.error e) ∧
    (∀ e s, editor_agent_run (Except.error e) s = Except.error e) ∧
    (∀ e s, text_generation_agent_run (Except.error e) s = Except.error e) := by
  refine ⟨?_, ?_, ?_, ?_, ?_⟩ <;> intro e s <;>
    simp [text_validation_agent, validate_text_run, editor_agent_run,
      text_generation_agent_run, should_retry_text_adding]

/-- C6: parser totality and conservative defaults.  The overlay-response
parser and the text-validation pass check are total functions (the
embedding returns a state for every input string, mirroring that the
source performs only containment tests and splits, which cannot raise);
for every response in which none of the known markers and labels occur,
the parse yields a rejected result with false boolean sub-fields and
absent text sub-fields, and the pass flag of the text validator is
false. -/
theorem parser_conservative_defaults (r : String) (s : AgentState)
    (h1 : strContains (pyUpper r) approvedMarker = false)
    (h2 : strContains (pyUpper r) "TEXT_CORRECT: YES" = false)
    (h3 : strContains (pyUpper r) "TEXT_CLEAR: YES" = false)
    (h4 : strContains r "FOUND_TEXT:" = false)
    (h5 : strContains r "SPECIFIC_FIX:" = false)
    (h6 : strContains (pyUpper r) passMarker = false) :
    (text_validation_agent (Except.ok r) s).text_validation_result =
      some "rejected" ∧
    (text_validation_agent (Except.ok r) s).text_is_correct = false ∧
    (text_validation_agent (Except.ok r) s).text_is_clear = false ∧
    (text_validation_agent (Except.ok r) s).found_text = none ∧
    (text_validation_agent (Except.ok r) s).specific_fix = none ∧
    (validate_text r s).validation_passed = false := by
  simp [text_validation_agent, validate_text, h1, h2, h3, h4, h5, h6]

/-- Witness for C6 at a concrete input: the empty response string. -/
theorem parser_conservative_defaults_witness :
    (text_validation_agent (Except.ok "") initialState).text_validation_result =
      some "rejected" ∧
    (text_validation_agent (Except.ok "") initialState).text_is_correct = false ∧
    (text_validation_agent (Except.ok "") initialState).text_is_clear = false ∧
    (text_validation_agent (Except.ok "") initialState).found_text = none ∧
    (text_validation_agent (Except.ok "") initialState).specific_fix = none ∧
    (validate_text "" initialState).validation_passed = false :=
  parser_conservative_defaults "" initialState (by decide) (by decide)
    (by decide) (by decide) (by decide) (by decide)

/-- C7: two-tier image-validation signal.  For every image-validation
response that contains the pass marker (case-insensitively) but lacks the
logo-integration marker, the stored feedback is the response with the
fixed remediation instruction appended exactly once, the pass flag is
true, and on every response the pass flag is determined solely by the
pass marker (it never reads the logo sub-field). -/
theorem image_validation_two_tier (r : String) (s : AgentState)
    (hpass : strContains (pyUpper r) passMarker = true)
    (hlogo : strContains (pyUpper r) logoMarker = false) :
    (editor_agent r s).validation_feedback = some (r ++ logoNote) ∧
    (editor_agent r s).validation_passed = true ∧
    (∀ q t, (editor_agent q t).validation_passed =
      strContains (pyUpper q) passMarker) := by
  refine ⟨?_, ?_, ?_⟩
  · simp [editor_agent, hlogo]
  · simp [editor_agent, hpass]
  · intro q t
    simp [editor_agent]

/-- Witness for C7 at a concrete input. -/
theorem image_validation_two_tier_witness :
    (editor_agent "VALIDATION: PASS" initialState).validation_feedback =
      some ("VALIDATION: PASS" ++ logoNote) ∧
    (editor_agent "VALIDATION: PASS" initialState).validation_passed = true :=
  ⟨(image_validation_two_tier "VALIDATION: PASS" initialState (by decide)
      (by decide)).1,
   (image_validation_two_tier "VALIDATION: PASS" initialState (by decide)
      (by decide)).2.1⟩

/-- C8: exhaustion trace for the text loop.  If the validator response
lacks the pass marker on every attempt and the bound is 3, the loop from
the initial state executes the generation stage exactly 3 times before
the router returns continue, and the final best text is the text produced
on attempt 1 — the unconditional first-attempt fallback, never
overwritten because no attempt passed. -/
theorem text_loop_exhaustion (gen resp : Nat → String)
    (hfail : ∀ i, strContains (pyUpper (resp i)) passMarker = false) :
    ∃ s, textLoopRun 3 gen resp 3 initialState = some (3, s) ∧
      s.best_text = some (gen 1) ∧ s.text_attempt_count = 3 := by
  refine ⟨textLoopIter gen resp (textLoopIter gen resp
    (textLoopIter gen resp initialState)), ?_, ?_, ?_⟩ <;>
    simp [textLoopRun, textLoopIter, text_generation_agent, validate_text,
      should_retry_text, initialState, hfail]

/-- Witness for C8 at concrete inputs: a validator that always fails. -/
theorem text_loop_exhaustion_witness :
    ∃ s, textLoopRun 3 (fun i => "text" ++ toString i)
        (fun _ => "VALIDATION: FAIL") 3 initialState = some (3, s) ∧
      s.best_text = some ("text" ++ toString 1) ∧ s.text_attempt_count = 3 :=
  text_loop_exhaustion (fun i => "text" ++ toString i)
    (fun _ => "VALIDATION: FAIL")
    (fun _ =>
      (by decide :
        strContains (pyUpper "VALIDATION: FAIL") passMarker = false))

/-- Counterexample for C9 at a concrete input: with the input text file
missing, the run does abort with FileNotFoundError and no retry, but the
executed-stage trace is load_pipeline followed by load_input — the
missing-input check lives inside the load_input node, the second node of
the compiled graph, so the entry stage load_pipeline has already executed
when the precondition fails.  The claim that the abort occurs before the
stage graph starts executing (no stage runs before the check) is
therefore false. -/
theorem precondition_check_counterexample :
    (runStages
        (graphEntryStages true (fun _ => false) "input.txt" "input.png" "")
        initialState).1 = ["load_pipeline", "load_input"] ∧
    (runStages
        (graphEntryStages true (fun _ => false) "input.txt" "input.png" "")
        initialState).2 =
      Except.error (PipelineError.fileNotFound "input.txt") :=
  ⟨rfl, rfl⟩

/-- C9 amended: if either required input is absent, the run fails fatally
with a FileNotFoundError and no retry, and no stage beyond load_input
executes — but the check is performed by the load_input stage, the second
node of the graph, after the entry node load_pipeline has already run. -/
theorem precondition_check_amended (loadOk : Bool) (fsExists : String → Bool)
    (tp ip content : String)
    (rest : List (String × (AgentState → Except PipelineError AgentState)))
    (s : AgentState)
    (h : fsExists tp = false ∨ fsExists ip = false) :
    (runStages (graphEntryStages loadOk fsExists tp ip content ++ rest) s).1 =
      ["load_pipeline", "load_input"] ∧
    ∃ p, (runStages (graphEntryStages loadOk fsExists tp ip content ++ rest)
        s).2 = Except.error (PipelineError.fileNotFound p) := by
  by_cases h1 : fsExists tp = false
  · constructor
    · simp [graphEntryStages, runStages, load_input, h1]
    · exact ⟨tp, by simp [graphEntryStages, runStages, load_input, h1]⟩
  · have h2 : fsExists ip = false := by
      cases h with
      | inl hl => exact absurd hl h1
      | inr hr => exact hr
    constructor
    · simp [graphEntryStages, runStages, load_input, h1, h2]
    · exact ⟨ip, by simp [graphEntryStages, runStages, load_input, h1, h2]⟩

/-- Witness for the amended C9 at a concrete input. -/
theorem precondition_check_amended_witness :
    (runStages
        (graphEntryStages true (fun _ => false) "in.txt" "in.png" "" ++ [])
        initialState).1 = ["load_pipeline", "load_input"] :=
  (precondition_check_amended true (fun _ => false) "in.txt" "in.png" "" []
    initialState (Or.inl rfl)).1

/-- C10: save-stage fallback.  If the overlay output reference is falsy or
its path does not exist, the save stage does not abort: the final poster
is copied from best_image or, failing that, current_image (the pyOr
chain), and the text written is best_text or, failing that, the last
generated text.  The last two conjuncts spell out the fallback chain of
the source's `or` expressions. -/
theorem save_output_fallback (fsExists : String → Bool) (outDir : String)
    (s : AgentState) (p t : String)
    (hmiss : pyTruthy s.poster_with_text = false ∨
      fsExists (s.poster_with_text.getD "") = false)
    (himg : pyOr s.best_image s.current_image = some p)
    (htxt : pyOr s.best_text s.generated_text = some t) :
    save_output fsExists outDir s =
      Except.ok ({ s with
        final_poster_path := some (outDir ++ "/poster.png")
        final_text_path := some (outDir ++ "/text.txt") }, p, t) ∧
    (∀ c, pyOr none c = c) ∧
    (∀ b c, b ≠ "" → pyOr (some b) c = some b) := by
  have hcond : (!(pyTruthy s.poster_with_text) ||
      !(fsExists (s.poster_with_text.getD ""))) = true := by
    cases hmiss with
    | inl h => simp [h]
    | inr h => simp [h]
  refine ⟨?_, ?_, ?_⟩
  · simp only [save_output]
    rw [hcond]
    simp [himg, htxt]
  · intro c; simp [pyOr, pyTruthy]
  · intro b c hb; simp [pyOr, pyTruthy, hb]

/-- Witness for C10 at a concrete input: overlay output absent, poster
falls back to best_image, text falls back to generated_text. -/
theorem save_output_fallback_witness :
    save_output (fun _ => false) "outputs"
      { initialState with
        best_image := some "best.png", generated_text := some "gen" } =
      Except.ok ({ initialState with
        best_image := some "best.png", generated_text := some "gen",
        final_poster_path := some ("outputs" ++ "/poster.png")
        final_text_path := some ("outputs" ++ "/text.txt") },
        "best.png", "gen") :=
  (save_output_fallback (fun _ => false) "outputs"
    { initialState with
      best_image := some "best.png", generated_text := some "gen" }
    "best.png" "gen" (Or.inl (by decide)) (by decide) (by decide)).1
